import Mathlib

/-!
Verification of the WBS passive wireless observation suite.

The development shallowly embeds the core observation-aggregation functions of
the suite: the BLE AirTag advertisement classifier, the RSSI-based distance
estimator, the keyed device registry with trend derivation and stale-entry
eviction (`modules/pytag_module.py`), and the WiFi scan-line parser,
frequency/band normalizer and deduplicating network registry
(`modules/wss_module.py`).

Python text is modelled as lists of character codes (`List Nat`), so that all
string manipulation (splitting, trimming, case conversion, digit tests) is
plain arithmetic on lists.  Machine floats appearing in the distance estimator
are modelled over the reals.
-/

namespace WBS

/-- Character codes of a string literal, used to write concrete inputs. -/
def strBytes (s : String) : List Nat := s.toList.map Char.toNat

/-! ## AirTag advertisement classifier (`AirTagDetector.is_airtag`) -/

/-- Embedding of `AirTagDetector.is_airtag`: decides whether an Apple
manufacturer payload (byte sequence) is an AirTag advertisement.  Mirrors the
source: payloads shorter than 2 bytes are rejected; type `0x12` (registered)
requires length ≥ 3, declared length byte `0x19`, total length ≥ 4 and status
byte `0x10`; type `0x07` (unregistered) requires length ≥ 2 and declared
length byte `0x19`; anything else is rejected. -/
def is_airtag (apple_data : List Nat) : Bool :=
  if apple_data.length < 2 then false
  else
    let payload_type := apple_data.getD 0 0
    if payload_type = 0x12 then
      if 3 ≤ apple_data.length then
        let payload_length := apple_data.getD 1 0
        if payload_length = 0x19 ∧ 4 ≤ apple_data.length then
          decide (apple_data.getD 2 0 = 0x10)
        else false
      else false
    else if payload_type = 0x07 then
      if 2 ≤ apple_data.length then decide (apple_data.getD 1 0 = 0x19)
      else false
    else false

/-! ## BLE device registry (`AirTagDetector`) -/

/-- Embedding of the `AirTagDevice` dataclass.  Timestamps are UTC epoch
seconds (`Int`); the float `distance` field is carried as a rational. -/
structure AirTagDevice where
  address : String
  rssi : Int
  distance : ℚ
  trend : String
  count : Nat
  last_seen : Int
  details : String
deriving DecidableEq

/-- Registry state: the `detected_airtags` dict as an ordered association
list keyed by address (Python dicts preserve insertion order). -/
abbrev AirTagRegistry := List (String × AirTagDevice)

/-- Dict membership test and lookup `detected_airtags[address]`. -/
def lookupDevice (reg : AirTagRegistry) (address : String) : Option AirTagDevice :=
  (reg.find? (fun p => p.1 == address)).map (fun p => p.2)

/-- Embedding of the registry-update section of
`AirTagDetector.detection_callback` (the body of the `airtags_lock` critical
section): on a known address the trend becomes `"red"` when the new rssi is
greater than the stored one, `"blue"` when smaller, `"green"` when equal, the
detection count is incremented and all other fields are overwritten with the
fresh values; an unknown address is inserted at the end with count 1 and
trend `"green"`. -/
def detection_update (reg : AirTagRegistry) (address : String) (rssi : Int)
    (distance : ℚ) (details : String) (now : Int) : AirTagRegistry :=
  match lookupDevice reg address with
  | some old_device =>
      let trend := if rssi > old_device.rssi then "red"
        else if rssi < old_device.rssi then "blue"
        else "green"
      reg.map (fun p =>
        if p.1 == address then
          (address, AirTagDevice.mk address rssi distance trend
            (old_device.count + 1) now details)
        else p)
  | none =>
      reg ++ [(address, AirTagDevice.mk address rssi distance "green" 1 now details)]

/-- Embedding of `AirTagDetector.cleanup_stale_devices`: collect the
addresses whose `last_seen` lies strictly before `now - device_timeout`,
then delete exactly those addresses from the registry. -/
def cleanup_stale_devices (reg : AirTagRegistry) (now device_timeout : Int) :
    AirTagRegistry :=
  let timeout_threshold := now - device_timeout
  let stale_addresses :=
    (reg.filter (fun p => decide (p.2.last_seen < timeout_threshold))).map (fun p => p.1)
  reg.filter (fun p => decide (¬ p.1 ∈ stale_addresses))

/-- Embedding of `AirTagDetector.calculate_distance` over the reals, with the
calibration constant `tx_power` as a parameter (the detector fixes it to
`-59`).  RSSI 0 yields the sentinel `-1.0`. -/
noncomputable def calculate_distance (tx_power rssi : Int) : ℝ :=
  if rssi = 0 then -1.0
  else
    let ratio : ℝ := (rssi : ℝ) * 1.0 / (tx_power : ℝ)
    if ratio < 1.0 then ratio ^ (10 : ℕ)
    else 0.89976 * ratio ^ (7.7095 : ℝ) + 0.111

/-- Registry after ingesting rssi −70 on a fresh address. -/
def exampleReg1 : AirTagRegistry := detection_update [] "D8:96:95:11:22:33" (-70) 0 "" 0

/-- Registry after further ingesting rssi −60. -/
def exampleReg2 : AirTagRegistry := detection_update exampleReg1 "D8:96:95:11:22:33" (-60) 0 "" 1

/-- Registry after further ingesting rssi −60 again. -/
def exampleReg3 : AirTagRegistry := detection_update exampleReg2 "D8:96:95:11:22:33" (-60) 0 "" 2

/-- Registry after further ingesting rssi −80. -/
def exampleReg4 : AirTagRegistry := detection_update exampleReg3 "D8:96:95:11:22:33" (-80) 0 "" 3

/-- Trend and count of the tracked address in a registry. -/
def trendCount (reg : AirTagRegistry) (address : String) : Option (String × Nat) :=
  (lookupDevice reg address).map (fun d => (d.trend, d.count))

/-- Concrete fresh device (last seen at time 90) for eviction examples. -/
def devFresh : AirTagDevice := AirTagDevice.mk "AA:AA:AA:AA:AA:AA" (-60) 0 "green" 1 90 ""

/-- Concrete stale device (last seen at time 10) for eviction examples. -/
def devStale : AirTagDevice := AirTagDevice.mk "BB:BB:BB:BB:BB:BB" (-70) 0 "green" 1 10 ""

/-! ## Python text primitives over character codes -/

/-- ASCII whitespace, as stripped by Python `str.strip()`. -/
def isSpaceB (c : Nat) : Bool := c == 32 || (9 ≤ c && c ≤ 13)

/-- Python `str.strip()`. -/
def pyStrip (s : List Nat) : List Nat :=
  ((s.dropWhile isSpaceB).reverse.dropWhile isSpaceB).reverse

/-- Helper for `str.split(':')`, accumulating the current field reversed. -/
def splitColonAux : List Nat → List Nat → List (List Nat)
  | [], cur => [cur.reverse]
  | c :: rest, cur =>
      if c == 58 then cur.reverse :: splitColonAux rest []
      else splitColonAux rest (c :: cur)

/-- Python `line.split(':')`. -/
def splitColon (s : List Nat) : List (List Nat) := splitColonAux s []

/-- Python `':'.join(parts)`. -/
def joinColon : List (List Nat) → List Nat
  | [] => []
  | [p] => p
  | p :: ps => p ++ 58 :: joinColon ps

/-- Python `str.isdigit()` restricted to ASCII digits. -/
def pyIsdigit (s : List Nat) : Bool :=
  !s.isEmpty && s.all (fun c => 48 ≤ c && c ≤ 57)

/-- Numeric value of a decimal digit string. -/
def digitsToNat (s : List Nat) : Nat := s.foldl (fun a c => a * 10 + (c - 48)) 0

/-- Python `int(...)` on an optionally signed decimal token (`none` models
`ValueError`). -/
def pyIntParse (s : List Nat) : Option Int :=
  match pyStrip s with
  | 43 :: ds => if pyIsdigit ds then some ((digitsToNat ds : Int)) else none
  | 45 :: ds => if pyIsdigit ds then some (-(digitsToNat ds : Int)) else none
  | ds => if pyIsdigit ds then some ((digitsToNat ds : Int)) else none

/-- Magnitude of `int(float(t) * 1000)` for an unsigned decimal literal
containing a point (`none` models `ValueError`). -/
def pyFloatCore (t : List Nat) : Option Nat :=
  let before := t.takeWhile (fun c => c != 46)
  let rest := t.dropWhile (fun c => c != 46)
  match rest with
  | 46 :: after =>
      if (before.all (fun c => 48 ≤ c && c ≤ 57)) &&
          (after.all (fun c => 48 ≤ c && c ≤ 57)) &&
          !(before.isEmpty && after.isEmpty) && !(after.contains 46) then
        some ((digitsToNat before * 10 ^ after.length + digitsToNat after) * 1000 /
          10 ^ after.length)
      else none
  | _ => none

/-- Python `int(float(s) * 1000)` for plain signed decimal literals with a
decimal point; `int` truncates toward zero (`none` models `ValueError`). -/
def pyFloatTimes1000 (s : List Nat) : Option Int :=
  match s with
  | 43 :: t => (pyFloatCore t).map (fun n => (n : Int))
  | 45 :: t => (pyFloatCore t).map (fun n => -(n : Int))
  | t => (pyFloatCore t).map (fun n => (n : Int))

/-- Whether `pat` begins the second list. -/
def startsWithB : List Nat → List Nat → Bool
  | [], _ => true
  | _ :: _, [] => false
  | p :: ps, c :: cs => p == c && startsWithB ps cs

/-- Python `str.replace(pat, rep)` (leftmost, non-overlapping), written with
an explicit fuel argument so the recursion is structural. -/
def replaceAllAux (pat rep : List Nat) : Nat → List Nat → List Nat
  | _, [] => []
  | 0, s => s
  | fuel + 1, c :: rest =>
      if !pat.isEmpty && startsWithB pat (c :: rest) then
        rep ++ replaceAllAux pat rep fuel ((c :: rest).drop pat.length)
      else c :: replaceAllAux pat rep fuel rest

/-- Python `s.replace(pat, rep)`. -/
def replaceAll (pat rep s : List Nat) : List Nat := replaceAllAux pat rep s.length s

/-- Python `str.upper()` on ASCII codes. -/
def pyToUpper (s : List Nat) : List Nat :=
  s.map (fun c => if 97 ≤ c ∧ c ≤ 122 then c - 32 else c)

/-! ## WiFi scan-line parser (`WiFiScanner`) -/

/-- ASCII hex digit of either case. -/
def isHexB (c : Nat) : Bool :=
  (48 ≤ c && c ≤ 57) || (65 ≤ c && c ≤ 70) || (97 ≤ c && c ≤ 102)

/-- ASCII digit or uppercase hex letter. -/
def isUpperHexB (c : Nat) : Bool := (48 ≤ c && c ≤ 57) || (65 ≤ c && c ≤ 70)

/-- MAC octet separator accepted by the validation regex: colon or hyphen. -/
def isSepB (c : Nat) : Bool := c == 58 || c == 45

/-- The strict 6-octet MAC regex
`^([0-9A-Fa-f]{2}[:-]){5}([0-9A-Fa-f]{2})$` of `_validate_bssid`: 17
characters, positions 2, 5, 8, 11, 14 (those `i` with `i % 3 = 2`) holding a
separator and the rest hex digits. -/
def macPatternMatch (s : List Nat) : Bool :=
  s.length == 17 &&
    (List.range 17).all (fun i =>
      if i % 3 = 2 then isSepB (s.getD i 0) else isHexB (s.getD i 0))

/-- The lone-octet regex `^[0-9A-Fa-f]{2}$` of `_validate_bssid`. -/
def twoHexOctet (s : List Nat) : Bool :=
  s.length == 2 && s.all isHexB

/-- Canonical colon-separated shape: 17 characters, uppercase hex octets,
all five separators being colons. -/
def colonSepUpperMac (s : List Nat) : Bool :=
  s.length == 17 &&
    (List.range 17).all (fun i =>
      if i % 3 = 2 then s.getD i 0 == 58 else isUpperHexB (s.getD i 0))

/-- Shape actually guaranteed by `_validate_bssid` for accepted values:
17 characters, uppercase hex octets, each separator a colon or a hyphen. -/
def upperMacPattern (s : List Nat) : Bool :=
  s.length == 17 &&
    (List.range 17).all (fun i =>
      if i % 3 = 2 then isSepB (s.getD i 0) else isUpperHexB (s.getD i 0))

/-- Embedding of `WiFiScanner._validate_bssid`: empty input is rejected;
backslashes are removed and the result trimmed; a candidate matching the
strict 6-octet colon/hyphen pattern is returned uppercased; a lone
two-hex-digit octet — a parsing artefact — and everything else yield
`none`. -/
def validate_bssid (bssid : List Nat) : Option (List Nat) :=
  if bssid.isEmpty then none
  else
    let b := pyStrip (replaceAll [92] [] bssid)
    if macPatternMatch b then some (pyToUpper b)
    else if twoHexOctet b then none
    else none

/-- Embedding of `WiFiScanner._parse_frequency`: strip `MHz`/`GHz`/space
characters; a token containing a decimal point is read as GHz and scaled to
MHz with truncation, otherwise it is read directly as MHz; unparsable input
yields 0. -/
def parse_frequency (freq_str : List Nat) : Int :=
  if freq_str.isEmpty then 0
  else
    let freq_clean :=
      pyStrip (replaceAll (strBytes " ") []
        (replaceAll (strBytes "GHz") [] (replaceAll (strBytes "MHz") [] freq_str)))
    if freq_clean.contains 46 then
      match pyFloatTimes1000 freq_clean with
      | some v => v
      | none => 0
    else
      match pyIntParse freq_clean with
      | some v => v
      | none => 0

/-- The fixed 5 GHz centre-frequency → channel table of
`_frequency_to_channel`. -/
def freq_to_chan_5g : List (Int × Int) :=
  [(5180, 36), (5200, 40), (5220, 44), (5240, 48),
   (5260, 52), (5280, 56), (5300, 60), (5320, 64),
   (5500, 100), (5520, 104), (5540, 108), (5560, 112),
   (5580, 116), (5600, 120), (5620, 124), (5640, 128),
   (5660, 132), (5680, 136), (5700, 140), (5720, 144),
   (5745, 149), (5765, 153), (5785, 157), (5805, 161),
   (5825, 165)]

/-- Embedding of `WiFiScanner._frequency_to_channel`: 2.4 GHz frequencies
2412–2484 use the arithmetic formula with 2484 pinned to channel 14;
5000–6000 use the fixed table; anything else has no derived channel. -/
def frequency_to_channel (frequency : Int) : Option Int :=
  if 2412 ≤ frequency ∧ frequency ≤ 2484 then
    if frequency = 2484 then some 14
    else some ((frequency - 2412) / 5 + 1)
  else if 5000 ≤ frequency ∧ frequency ≤ 6000 then
    freq_to_chan_5g.lookup frequency
  else none

/-- Embedding of `WiFiScanner._parse_channel`: a nonempty all-digit channel
string wins; otherwise fall back to the frequency-derived channel when the
frequency is positive. -/
def parse_channel (channel_str : List Nat) (frequency : Int) : Option Int :=
  if !channel_str.isEmpty && pyIsdigit channel_str then
    some ((digitsToNat channel_str : Int))
  else if frequency > 0 then frequency_to_channel frequency
  else none

/-- Embedding of the band computation in `WiFiNetwork.__post_init__`. -/
def derive_band (frequency : Int) : List Nat :=
  if frequency ≠ 0 ∧ 0 < frequency then
    if 2400 ≤ frequency ∧ frequency ≤ 2500 then strBytes "2.4GHz"
    else if 5000 ≤ frequency ∧ frequency ≤ 6000 then strBytes "5GHz"
    else if 6000 ≤ frequency then strBytes "6GHz"
    else strBytes "Unknown"
  else strBytes "Unknown"

/-- Fields extracted from one nmcli line by the robust parser. -/
structure ParsedLine where
  ssid : List Nat
  security : List Nat
  signal : Int
  frequency : Int
  bssid : Option (List Nat)
  channel : Option Int
deriving DecidableEq

/-- Embedding of `WiFiScanner._parse_nmcli_line_robust`: blank lines and
lines with fewer than 8 colon-separated fields yield no record; otherwise
fields 0–3 are SSID, security, signal and frequency, fields 4–9 are rejoined
into the BSSID candidate and validated, and field 10 (when present) is the
channel string with frequency-derived fallback.  A non-digit signal string
yields signal 0.  The function is total: the per-line `except` of the source
can never surface an exception. -/
def parse_nmcli_line_robust (line : List Nat) : Option ParsedLine :=
  if (pyStrip line).isEmpty then none
  else
    let parts := splitColon line
    if parts.length < 8 then none
    else
      let ssid := pyStrip (parts.getD 0 [])
      let security := pyStrip (parts.getD 1 [])
      let signal_str := pyStrip (parts.getD 2 [])
      let freq_str := pyStrip (parts.getD 3 [])
      let bssid_parts := (parts.drop 4).take 6
      let bssid_raw := joinColon bssid_parts
      let channel_str := if parts.length > 10 then parts.getD 10 [] else []
      let bssid := validate_bssid bssid_raw
      let signal : Int := if pyIsdigit signal_str then ((digitsToNat signal_str : Int)) else 0
      let freq := parse_frequency freq_str
      let channel := parse_channel channel_str freq
      some (ParsedLine.mk ssid security signal freq bssid channel)

/-- Embedding of the `WiFiNetwork` dataclass.  The band is recomputed from
the frequency as in `__post_init__`; the creation timestamp is presentation
metadata and is omitted. -/
structure WiFiNetwork where
  ssid : List Nat
  security : List Nat
  signal : Int
  frequency : Int
  band : List Nat
  channel : Option Int
  bssid : Option (List Nat)
  rssi : Option Int
deriving DecidableEq

/-- `WiFiNetwork(...)` construction followed by `__post_init__`, which
derives the band from the frequency. -/
def mkWiFiNetwork (ssid security : List Nat) (signal frequency : Int)
    (channel : Option Int) (bssid : Option (List Nat)) (rssi : Option Int) :
    WiFiNetwork :=
  WiFiNetwork.mk ssid security signal frequency (derive_band frequency)
    channel bssid rssi

/-- One iteration of the network-building loop in `WiFiScanner.scan_networks`:
parse the line, skip it when parsing fails or the trimmed SSID is empty,
otherwise build the `WiFiNetwork`, attaching the optional RSSI looked up by
SSID. -/
def scan_line_to_network (rssi_data : List (List Nat × Int)) (line : List Nat) :
    Option WiFiNetwork :=
  match parse_nmcli_line_robust line with
  | none => none
  | some d =>
      if d.ssid.isEmpty then none
      else some (mkWiFiNetwork d.ssid d.security d.signal d.frequency d.channel
        d.bssid (rssi_data.lookup d.ssid))

/-- The network-list construction of `WiFiScanner.scan_networks` over a
batch of output lines. -/
def scan_networks_lines (rssi_data : List (List Nat × Int))
    (lines : List (List Nat)) : List WiFiNetwork :=
  lines.filterMap (scan_line_to_network rssi_data)

/-! ## WiFi network registry (`WiFiScanner._add_unique_networks`) -/

/-- The `ssid|bssid` dedup key (`network.bssid or 'no_bssid'` is Python
truthiness: both a missing and an empty BSSID fall back to the
placeholder). -/
def network_key (n : WiFiNetwork) : List Nat :=
  n.ssid ++ strBytes "|" ++
    (match n.bssid with
     | some b => if b.isEmpty then strBytes "no_bssid" else b
     | none => strBytes "no_bssid")

/-- Loop of `_add_unique_networks`: walk the new batch keeping a set of seen
keys, appending each network whose key is unseen and recording its key. -/
def add_unique_aux (existing : List (List Nat)) (acc : List WiFiNetwork) :
    List WiFiNetwork → List WiFiNetwork
  | [] => acc
  | n :: rest =>
      let key := network_key n
      if key ∈ existing then add_unique_aux existing acc rest
      else add_unique_aux (key :: existing) (acc ++ [n]) rest

/-- Embedding of `WiFiScanner._add_unique_networks`: the existing-key set is
built from the current `discovered_networks`, then the new batch is folded
through it. -/
def add_unique_networks (discovered new_networks : List WiFiNetwork) :
    List WiFiNetwork :=
  add_unique_aux (discovered.map network_key) discovered new_networks

/-! ## Concrete inputs used as test vectors -/

/-- The specification's example nmcli line. -/
def exampleLine : List Nat := strBytes "MyNet:WPA2:75:2437:AA:BB:CC:DD:EE:FF:6"

/-- An 8-field line whose reassembled BSSID candidate carries hyphens. -/
def hyphenLine : List Nat := strBytes "MyNet:WPA2:75:2437:aa-bb-cc:dd:ee:ff"

/-- A line whose signal field exceeds 100. -/
def bigSignalLine : List Nat := strBytes "MyNet:WPA2:999:2437:AA:BB:CC:DD:EE:FF:6"

/-- A network observation used for dedup examples. -/
def netDup1 : WiFiNetwork :=
  mkWiFiNetwork (strBytes "MyNet") (strBytes "WPA2") 75 2437 (some 6)
    (some (strBytes "AA:BB:CC:DD:EE:FF")) none

/-- A second observation with the same `(ssid, bssid)` but different data. -/
def netDup2 : WiFiNetwork :=
  mkWiFiNetwork (strBytes "MyNet") (strBytes "") 10 0 none
    (some (strBytes "AA:BB:CC:DD:EE:FF")) none

/-- C1: `is_airtag` returns true iff the payload has length ≥ 4 and starts
with bytes `0x12 0x19 0x10`, or has length ≥ 2 and starts with `0x07 0x19`;
every other shape returns false.  In particular `12 19 10 ..` is accepted,
`12 19 11 ..`, `07 18` and single-byte payloads are rejected, `07 19` is
accepted. -/
theorem C1_is_airtag_spec :
    (∀ d : List Nat, is_airtag d = true ↔
      ((4 ≤ d.length ∧ d.getD 0 0 = 0x12 ∧ d.getD 1 0 = 0x19 ∧ d.getD 2 0 = 0x10) ∨
       (2 ≤ d.length ∧ d.getD 0 0 = 0x07 ∧ d.getD 1 0 = 0x19))) ∧
    is_airtag [0x12, 0x19, 0x10, 0x00] = true ∧
    is_airtag [0x12, 0x19, 0x11, 0x00] = false ∧
    is_airtag [0x07, 0x19] = true ∧
    is_airtag [0x07, 0x18] = false ∧
    (∀ b : Nat, is_airtag [b] = false) := by
  refine ⟨fun d => ?_, by decide, by decide, by decide, by decide,
    fun b => by simp [is_airtag]⟩
  rcases d with _ | ⟨a, _ | ⟨b, _ | ⟨c, _ | ⟨e, t⟩⟩⟩⟩ <;>
    simp [is_airtag] <;> (try split_ifs) <;> simp_all

/-- Appending a binding for an address that is absent makes it the lookup
result. -/
theorem lookupDevice_append_of_none (reg : AirTagRegistry) (a : String)
    (d : AirTagDevice) (h : lookupDevice reg a = none) :
    lookupDevice (reg ++ [(a, d)]) a = some d := by
  induction reg with
  | nil => simp [lookupDevice]
  | cons p t ih =>
      rcases p with ⟨k, v⟩
      by_cases hk : (k == a)
      · exact absurd h (by simp [lookupDevice, List.find?, hk])
      · have h' : lookupDevice t a = none := by
          simpa [lookupDevice, List.find?, hk] using h
        simpa [lookupDevice, List.find?, hk] using ih h'

/-- Replacing the binding of a present address makes the new device the
lookup result. -/
theorem lookupDevice_map_set (reg : AirTagRegistry) (a : String)
    (d : AirTagDevice) (h : (lookupDevice reg a).isSome) :
    lookupDevice (reg.map (fun p => if p.1 == a then (a, d) else p)) a = some d := by
  induction reg with
  | nil => simp [lookupDevice] at h
  | cons p t ih =>
      rcases p with ⟨k, v⟩
      by_cases hk : (k == a)
      · simp [lookupDevice, List.find?, hk]
      · have h' : (lookupDevice t a).isSome := by
          simpa [lookupDevice, List.find?, hk] using h
        simpa [lookupDevice, List.find?, hk] using ih h'

/-- C2: ingesting a detection on a known address stores trend `"red"`
(Rising) when the new rssi is greater than the stored one, `"blue"`
(Falling) when smaller, `"green"` (Stable) when equal, and increments the
count by exactly one; an unknown address is inserted with count 1 and trend
`"green"` (Stable).  Sequential ingests with rssi −70, −60, −60, −80 on one
address yield trends Stable, Rising, Stable, Falling with counts 1, 2, 3, 4. -/
theorem C2_detection_update_spec :
    (∀ (reg : AirTagRegistry) (address : String) (rssi : Int) (distance : ℚ)
        (details : String) (now : Int),
      lookupDevice (detection_update reg address rssi distance details now) address =
        some (match lookupDevice reg address with
          | some old => AirTagDevice.mk address rssi distance
              (if rssi > old.rssi then "red" else if rssi < old.rssi then "blue" else "green")
              (old.count + 1) now details
          | none => AirTagDevice.mk address rssi distance "green" 1 now details)) ∧
    trendCount exampleReg1 "D8:96:95:11:22:33" = some ("green", 1) ∧
    trendCount exampleReg2 "D8:96:95:11:22:33" = some ("red", 2) ∧
    trendCount exampleReg3 "D8:96:95:11:22:33" = some ("green", 3) ∧
    trendCount exampleReg4 "D8:96:95:11:22:33" = some ("blue", 4) := by
  refine ⟨fun reg address rssi distance details now => ?_,
    by decide, by decide, by decide, by decide⟩
  unfold detection_update
  cases h : lookupDevice reg address with
  | none => exact lookupDevice_append_of_none reg address _ h
  | some old => exact lookupDevice_map_set reg address _ (by simp [h])

/-- In a registry with pairwise-distinct addresses, two bindings of the same
address carry the same device. -/
theorem keyed_mem_unique (reg : AirTagRegistry)
    (h : (reg.map Prod.fst).Nodup) (a : String) (d d' : AirTagDevice)
    (h1 : (a, d) ∈ reg) (h2 : (a, d') ∈ reg) : d = d' := by
  induction reg with
  | nil => simp at h1
  | cons p t ih =>
      simp only [List.map_cons, List.nodup_cons] at h
      rcases List.mem_cons.mp h1 with e1 | m1 <;>
        rcases List.mem_cons.mp h2 with e2 | m2
      · have e : (a, d) = (a, d') := e1.trans e2.symm
        exact ((Prod.mk.injEq _ _ _ _).mp e).2
      · exact absurd (List.mem_map.mpr ⟨(a, d'), m2, by rw [← e1]⟩) h.1
      · exact absurd (List.mem_map.mpr ⟨(a, d), m1, by rw [← e2]⟩) h.1
      · exact ih h.2 m1 m2

/-- C4: after `cleanup_stale_devices` runs at time `now` on a registry with
pairwise-distinct addresses, an entry is present iff it was present before
and its `last_seen` is not older than `now - device_timeout`; stale entries
are removed, fresh ones are retained, and no other entry is affected.  On a
concrete two-entry registry at time 100 with timeout 60, the stale entry
(last seen 10) disappears and the fresh one (last seen 90) survives. -/
theorem C4_cleanup_spec :
    (∀ reg : AirTagRegistry, (reg.map Prod.fst).Nodup →
      ∀ now device_timeout : Int, ∀ (a : String) (d : AirTagDevice),
        ((a, d) ∈ cleanup_stale_devices reg now device_timeout ↔
          (a, d) ∈ reg ∧ ¬ d.last_seen < now - device_timeout)) ∧
    cleanup_stale_devices
        [("AA:AA:AA:AA:AA:AA", devFresh), ("BB:BB:BB:BB:BB:BB", devStale)] 100 60 =
      [("AA:AA:AA:AA:AA:AA", devFresh)] := by
  refine ⟨fun reg hnd now device_timeout a d => ?_, by decide⟩
  simp only [cleanup_stale_devices, List.mem_filter, decide_eq_true_eq]
  constructor
  · rintro ⟨hm, hb⟩
    refine ⟨hm, fun hlt => hb ?_⟩
    exact List.mem_map.mpr ⟨(a, d), List.mem_filter.mpr ⟨hm, by simpa using hlt⟩, rfl⟩
  · rintro ⟨hm, hnl⟩
    refine ⟨hm, fun hcontra => ?_⟩
    rcases List.mem_map.mp hcontra with ⟨⟨a', d'⟩, hmem, heq⟩
    rcases List.mem_filter.mp hmem with ⟨hmem', hlt'⟩
    have ha : a' = a := heq
    subst ha
    have hd : d' = d := keyed_mem_unique reg hnd a' d' d hmem' hm
    subst hd
    exact hnl (by simpa using hlt')

/-- C4 witness: the membership characterisation instantiated on the concrete
two-entry registry. -/
theorem C4_cleanup_spec_witness :
    (("AA:AA:AA:AA:AA:AA", devFresh) ∈
        cleanup_stale_devices
          [("AA:AA:AA:AA:AA:AA", devFresh), ("BB:BB:BB:BB:BB:BB", devStale)] 100 60 ↔
      ("AA:AA:AA:AA:AA:AA", devFresh) ∈
          [("AA:AA:AA:AA:AA:AA", devFresh), ("BB:BB:BB:BB:BB:BB", devStale)] ∧
        ¬ devFresh.last_seen < 100 - 60) :=
  C4_cleanup_spec.1 _ (by decide) 100 60 "AA:AA:AA:AA:AA:AA" devFresh

/-- C3: with the detector's calibration `txPower = -59`, `calculate_distance`
returns exactly `-1` at rssi 0; on every nonzero rssi it is non-negative and
equals `ratio ^ 10` when `ratio = rssi / txPower < 1` and
`0.89976 * ratio ^ 7.7095 + 0.111` otherwise; rssi `-59` gives ratio 1 and
hence exactly `1.01076`. -/
theorem C3_calculate_distance_spec :
    calculate_distance (-59) 0 = -1 ∧
    (∀ rssi : Int, rssi ≠ 0 → 0 ≤ calculate_distance (-59) rssi) ∧
    (∀ rssi : Int, rssi ≠ 0 →
      calculate_distance (-59) rssi =
        if ((rssi : ℝ) / (-59 : ℝ)) < 1 then ((rssi : ℝ) / (-59 : ℝ)) ^ (10 : ℕ)
        else 0.89976 * ((rssi : ℝ) / (-59 : ℝ)) ^ (7.7095 : ℝ) + 0.111) ∧
    calculate_distance (-59) (-59) = 1.01076 := by
  have hcast : ∀ rssi : Int, ((rssi : ℝ) * 1.0 / ((-59 : ℤ) : ℝ)) = (rssi : ℝ) / (-59 : ℝ) := by
    intro rssi; push_cast; ring
  refine ⟨?_, ?_, ?_, ?_⟩
  · simp [calculate_distance]; norm_num
  · intro rssi h
    simp only [calculate_distance, if_neg h]
    split_ifs with hr
    · exact Even.pow_nonneg (show Even 10 by decide) _
    · push_neg at hr
      have h0 : (0 : ℝ) ≤ (rssi : ℝ) * 1.0 / ((-59 : ℤ) : ℝ) := by
        norm_num at hr ⊢; linarith
      have h1 := Real.rpow_nonneg h0 (7.7095 : ℝ)
      nlinarith
  · intro rssi h
    simp only [calculate_distance, if_neg h, hcast]
    norm_num
  · simp only [calculate_distance]
    norm_num

/-- C3 witness: the non-negativity and formula parts instantiated at rssi
`-59`, together with the sentinel at rssi 0. -/
theorem C3_calculate_distance_spec_witness :
    calculate_distance (-59) 0 = -1 ∧ 0 ≤ calculate_distance (-59) (-59) :=
  ⟨C3_calculate_distance_spec.1, C3_calculate_distance_spec.2.1 (-59) (by decide)⟩

/-- Projections of a successfully parsed line: the SSID is the trimmed field
0, the signal is the digit value of the trimmed field 2 (0 when not a digit
string), and the BSSID is the validation of the rejoined fields 4–9. -/
theorem parse_fields_eq (line : List Nat) (d : ParsedLine)
    (h : parse_nmcli_line_robust line = some d) :
    d.ssid = pyStrip ((splitColon line).getD 0 []) ∧
    d.signal = (if pyIsdigit (pyStrip ((splitColon line).getD 2 []))
      then ((digitsToNat (pyStrip ((splitColon line).getD 2 [])) : Int)) else 0) ∧
    d.bssid = validate_bssid (joinColon (((splitColon line).drop 4).take 6)) := by
  simp only [parse_nmcli_line_robust] at h
  by_cases h1 : (pyStrip line).isEmpty
  · rw [if_pos h1] at h
    exact absurd h (by simp)
  · rw [if_neg h1] at h
    by_cases h2 : (splitColon line).length < 8
    · rw [if_pos h2] at h
      exact absurd h (by simp)
    · rw [if_neg h2] at h
      rw [← Option.some.inj h]
      exact ⟨rfl, rfl, rfl⟩

/-- C5: parsing `"MyNet:WPA2:75:2437:AA:BB:CC:DD:EE:FF:6"` yields ssid
`MyNet`, security `WPA2`, signal 75, frequency 2437, bssid
`AA:BB:CC:DD:EE:FF` and channel 6 (band `2.4GHz`, no RSSI detail); a line
splitting into fewer than 8 fields yields no record; and a line whose
trimmed SSID field is empty yields no record. -/
theorem C5_parse_line_spec :
    scan_line_to_network [] exampleLine =
      some (WiFiNetwork.mk (strBytes "MyNet") (strBytes "WPA2") 75 2437
        (strBytes "2.4GHz") (some 6) (some (strBytes "AA:BB:CC:DD:EE:FF")) none) ∧
    (∀ line : List Nat, (splitColon line).length < 8 →
      parse_nmcli_line_robust line = none) ∧
    (∀ (rssi_data : List (List Nat × Int)) (line : List Nat),
      (pyStrip ((splitColon line).getD 0 [])).isEmpty →
      scan_line_to_network rssi_data line = none) := by
  refine ⟨by decide, fun line h => ?_, fun rssi_data line h => ?_⟩
  · simp only [parse_nmcli_line_robust]
    by_cases h1 : (pyStrip line).isEmpty
    · simp [h1]
    · simp [h1, h]
  · cases hp : parse_nmcli_line_robust line with
    | none => simp [scan_line_to_network, hp]
    | some d =>
        have hs := (parse_fields_eq line d hp).1
        simp only [scan_line_to_network, hp]
        rw [hs, if_pos h]

/-- C5 witness: the under-8-fields and empty-SSID rejections instantiated on
concrete lines. -/
theorem C5_parse_line_spec_witness :
    parse_nmcli_line_robust (strBytes "MyNet:WPA2:75:2437:AA") = none ∧
    scan_line_to_network [] (strBytes " :WPA2:75:2437:AA:BB:CC:DD:EE:FF:6") = none :=
  ⟨C5_parse_line_spec.2.1 (strBytes "MyNet:WPA2:75:2437:AA") (by decide),
   C5_parse_line_spec.2.2 [] (strBytes " :WPA2:75:2437:AA:BB:CC:DD:EE:FF:6") (by decide)⟩

/-- C6: the per-line parse is a total function into an option — a line with
fewer than 8 fields yields no record, a successfully parsed line whose
signal field is not a digit string records signal 0, and a line on which the
pipeline yields no record leaves the processing of the remaining lines of
the batch unchanged. -/
theorem C6_parser_total_safety :
    (∀ line : List Nat, (splitColon line).length < 8 →
      parse_nmcli_line_robust line = none) ∧
    (∀ (line : List Nat) (d : ParsedLine), parse_nmcli_line_robust line = some d →
      pyIsdigit (pyStrip ((splitColon line).getD 2 [])) = false → d.signal = 0) ∧
    (∀ (rssi_data : List (List Nat × Int)) (pre : List (List Nat))
        (line : List Nat) (post : List (List Nat)),
      scan_line_to_network rssi_data line = none →
      scan_networks_lines rssi_data (pre ++ line :: post) =
        scan_networks_lines rssi_data pre ++ scan_networks_lines rssi_data post) := by
  refine ⟨fun line h => ?_, fun line d hp hdig => ?_,
    fun rssi_data pre line post h => ?_⟩
  · simp only [parse_nmcli_line_robust]
    by_cases h1 : (pyStrip line).isEmpty
    · simp [h1]
    · simp [h1, h]
  · have hsig := (parse_fields_eq line d hp).2.1
    rw [hdig] at hsig
    simpa using hsig
  · simp [scan_networks_lines, List.filterMap_append, List.filterMap_cons, h]

/-- C6 witness: a malformed 3-field line yields no record, and dropping it
from the middle of a batch leaves the surrounding results untouched. -/
theorem C6_parser_total_safety_witness :
    parse_nmcli_line_robust (strBytes "a:b:c") = none ∧
    scan_networks_lines [] [exampleLine, strBytes "a:b:c", exampleLine] =
      scan_networks_lines [] [exampleLine] ++ scan_networks_lines [] [exampleLine] :=
  ⟨C6_parser_total_safety.1 (strBytes "a:b:c") (by decide),
   C6_parser_total_safety.2.2 [] [exampleLine] (strBytes "a:b:c") [exampleLine] (by decide)⟩

/-- C7: the derived band is `2.4GHz` on 2400–2500, `5GHz` on 5000–6000,
`6GHz` above, `Unknown` otherwise (zero included); the frequency-derived
channel on 2412–2484 is `(f − 2412) / 5 + 1` except exactly 2484 ↦ 14, and
on 5000–6000 it is the fixed 5 GHz table; 2437 ↦ band `2.4GHz`, channel 6;
5180 ↦ band `5GHz`, channel 36; 2484 ↦ channel 14. -/
theorem C7_band_channel_spec :
    (∀ f : Int, derive_band f =
      if 2400 ≤ f ∧ f ≤ 2500 then strBytes "2.4GHz"
      else if 5000 ≤ f ∧ f ≤ 6000 then strBytes "5GHz"
      else if 6000 ≤ f then strBytes "6GHz"
      else strBytes "Unknown") ∧
    (∀ f : Int, 2412 ≤ f → f ≤ 2484 →
      frequency_to_channel f = some (if f = 2484 then 14 else (f - 2412) / 5 + 1)) ∧
    (∀ f : Int, 5000 ≤ f → f ≤ 6000 →
      frequency_to_channel f = freq_to_chan_5g.lookup f) ∧
    derive_band 2437 = strBytes "2.4GHz" ∧
    frequency_to_channel 2437 = some 6 ∧
    derive_band 5180 = strBytes "5GHz" ∧
    frequency_to_channel 5180 = some 36 ∧
    frequency_to_channel 2484 = some 14 := by
  refine ⟨fun f => ?_, fun f h1 h2 => ?_, fun f h1 h2 => ?_,
    by decide, by decide, by decide, by decide, by decide⟩
  · simp only [derive_band]
    split_ifs <;> first | rfl | omega
  · simp only [frequency_to_channel, if_pos (And.intro h1 h2)]
    split_ifs <;> rfl
  · simp only [frequency_to_channel]
    rw [if_neg (by omega : ¬(2412 ≤ f ∧ f ≤ 2484)), if_pos (And.intro h1 h2)]

/-- C7 witness: the channel formula at 2437 and the table lookup at 5180. -/
theorem C7_band_channel_spec_witness :
    frequency_to_channel 2437 =
      some (if (2437 : Int) = 2484 then 14 else (2437 - 2412) / 5 + 1) ∧
    frequency_to_channel 5180 = freq_to_chan_5g.lookup 5180 :=
  ⟨C7_band_channel_spec.2.1 2437 (by decide) (by decide),
   C7_band_channel_spec.2.2.1 5180 (by decide) (by decide)⟩


/-- `add_unique_aux` only ever appends: the result is the accumulator
followed by a subsequence of the new batch, so insertion order is preserved
and kept observations are stored unchanged. -/
theorem add_unique_aux_append (ns : List WiFiNetwork) :
    ∀ (existing : List (List Nat)) (acc : List WiFiNetwork),
      ∃ l, add_unique_aux existing acc ns = acc ++ l ∧ l.Sublist ns := by
  induction ns with
  | nil => exact fun ex acc => ⟨[], by simp [add_unique_aux], List.nil_sublist _⟩
  | cons n rest ih =>
      intro ex acc
      simp only [add_unique_aux]
      by_cases hk : network_key n ∈ ex
      · rw [if_pos hk]
        obtain ⟨l, hl, hs⟩ := ih ex acc
        exact ⟨l, hl, hs.cons n⟩
      · rw [if_neg hk]
        obtain ⟨l, hl, hs⟩ := ih (network_key n :: ex) (acc ++ [n])
        exact ⟨n :: l, by rw [hl]; simp, hs.cons₂ n⟩

/-- `add_unique_aux` preserves distinctness of the accumulated keys,
provided every accumulated key is already recorded in the seen set. -/
theorem add_unique_aux_nodup (ns : List WiFiNetwork) :
    ∀ (existing : List (List Nat)) (acc : List WiFiNetwork),
      (∀ k ∈ acc.map network_key, k ∈ existing) →
      (acc.map network_key).Nodup →
      ((add_unique_aux existing acc ns).map network_key).Nodup := by
  induction ns with
  | nil => intro ex acc _ h2; simpa [add_unique_aux] using h2
  | cons n rest ih =>
      intro ex acc h1 h2
      simp only [add_unique_aux]
      by_cases hk : network_key n ∈ ex
      · rw [if_pos hk]
        exact ih ex acc h1 h2
      · rw [if_neg hk]
        refine ih (network_key n :: ex) (acc ++ [n]) ?_ ?_
        · intro k hkm
          rw [List.map_append] at hkm
          rcases List.mem_append.mp hkm with hkm | hkm
          · exact List.mem_cons_of_mem _ (h1 k hkm)
          · simp only [List.map_cons, List.map_nil, List.mem_singleton] at hkm
            subst hkm
            exact List.mem_cons_self _ _
        · rw [List.map_append]
          refine List.Nodup.append h2 (by simp) ?_
          intro k hka hkb
          simp only [List.map_cons, List.map_nil, List.mem_singleton] at hkb
          subst hkb
          exact hk (h1 _ hka)

/-- When the accumulator already contains a network with the searched key,
`add_unique_aux` does not change which network is found first. -/
theorem add_unique_aux_find_some (k : List Nat) (ns : List WiFiNetwork) :
    ∀ (existing : List (List Nat)) (acc : List WiFiNetwork),
      (acc.find? (fun n => network_key n == k)).isSome →
      (add_unique_aux existing acc ns).find? (fun n => network_key n == k) =
        acc.find? (fun n => network_key n == k) := by
  induction ns with
  | nil => intro ex acc _; simp [add_unique_aux]
  | cons n rest ih =>
      intro ex acc hs
      simp only [add_unique_aux]
      by_cases hk : network_key n ∈ ex
      · rw [if_pos hk]
        exact ih ex acc hs
      · rw [if_neg hk]
        obtain ⟨m, hm⟩ := Option.isSome_iff_exists.mp hs
        have hs' : ((acc ++ [n]).find? (fun n => network_key n == k)).isSome := by
          rw [List.find?_append, hm]
          simp
        rw [ih (network_key n :: ex) (acc ++ [n]) hs', List.find?_append, hm]
        simp

/-- When the accumulator holds no network with the searched key, the first
kept network with that key is the first one of the batch — provided the key
was not already recorded as seen. -/
theorem add_unique_aux_find_none (k : List Nat) (ns : List WiFiNetwork) :
    ∀ (existing : List (List Nat)) (acc : List WiFiNetwork),
      acc.find? (fun n => network_key n == k) = none →
      (add_unique_aux existing acc ns).find? (fun n => network_key n == k) =
        if k ∈ existing then none
        else ns.find? (fun n => network_key n == k) := by
  induction ns with
  | nil =>
      intro ex acc hacc
      simp only [add_unique_aux, List.find?_nil]
      rw [hacc, ite_self]
  | cons n rest ih =>
      intro ex acc hacc
      simp only [add_unique_aux]
      by_cases hk : network_key n ∈ ex
      · rw [if_pos hk, ih ex acc hacc]
        by_cases hkex : k ∈ ex
        · rw [if_pos hkex, if_pos hkex]
        · rw [if_neg hkex, if_neg hkex]
          have hne : (network_key n == k) = false := by
            simp only [beq_eq_false_iff_ne, ne_eq]
            intro he
            exact hkex (he ▸ hk)
          simp [List.find?, hne]
      · rw [if_neg hk]
        by_cases hpn : (network_key n == k) = true
        · have hkeq : network_key n = k := eq_of_beq hpn
          have hfind1 : (acc ++ [n]).find? (fun n => network_key n == k) = some n := by
            rw [List.find?_append, hacc]
            simp [List.find?, hpn]
          rw [add_unique_aux_find_some k rest (network_key n :: ex) (acc ++ [n])
              (by rw [hfind1]; simp),
            hfind1, if_neg (by rw [← hkeq]; exact hk)]
          simp [List.find?, hpn]
        · have hpn' : (network_key n == k) = false := by
            simpa using hpn
          have hfind1 : (acc ++ [n]).find? (fun n => network_key n == k) = none := by
            rw [List.find?_append, hacc]
            simp [List.find?, hpn']
          rw [ih (network_key n :: ex) (acc ++ [n]) hfind1]
          by_cases hkex : k ∈ ex
          · rw [if_pos (List.mem_cons_of_mem _ hkex), if_pos hkex]
          · have hknotcons : ¬ k ∈ network_key n :: ex := by
              intro hc
              rcases List.mem_cons.mp hc with he | hm
              · exact hpn (by simp [he])
              · exact hkex hm
            rw [if_neg hknotcons, if_neg hkex]
            simp [List.find?, hpn']

/-- C8: the network registry keeps pairwise-distinct `ssid|bssid` keys; each
`addUnique` call only appends a subsequence of the incoming batch after the
existing contents, so insertion order is preserved and kept observations are
unchanged; the first observation carrying a given key — whether already
stored or earliest in the batch — is the one that search finds afterwards;
and feeding the same `(ssid, bssid)` twice across two calls leaves exactly
one stored observation. -/
theorem C8_add_unique_spec :
    (∀ discovered ns : List WiFiNetwork,
      (discovered.map network_key).Nodup →
      ((add_unique_networks discovered ns).map network_key).Nodup) ∧
    (∀ discovered ns : List WiFiNetwork,
      ∃ l, add_unique_networks discovered ns = discovered ++ l ∧ l.Sublist ns) ∧
    (∀ (discovered ns : List WiFiNetwork) (k : List Nat),
      (add_unique_networks discovered ns).find? (fun n => network_key n == k) =
        (discovered.find? (fun n => network_key n == k)).or
          (ns.find? (fun n => network_key n == k))) ∧
    add_unique_networks (add_unique_networks [] [netDup1]) [netDup2] = [netDup1] := by
  refine ⟨fun d ns hnd => ?_, fun d ns => add_unique_aux_append ns _ d,
    fun d ns k => ?_, by decide⟩
  · exact add_unique_aux_nodup ns (d.map network_key) d (fun k hk => hk) hnd
  · unfold add_unique_networks
    cases hd : d.find? (fun n => network_key n == k) with
    | some m =>
        rw [add_unique_aux_find_some k ns (d.map network_key) d (by rw [hd]; simp), hd]
        simp
    | none =>
        rw [add_unique_aux_find_none k ns (d.map network_key) d hd]
        have hnotin : ¬ k ∈ d.map network_key := by
          intro hmem
          rcases List.mem_map.mp hmem with ⟨n, hn, hkey⟩
          exact (List.find?_eq_none.mp hd n hn) (by simp [hkey])
        rw [if_neg hnotin]
        simp

/-- C8 witness: distinctness of the stored keys after two calls feeding the
same key twice. -/
theorem C8_add_unique_spec_witness :
    ((add_unique_networks [netDup1] [netDup2]).map network_key).Nodup :=
  C8_add_unique_spec.1 [netDup1] [netDup2] (by decide)

/-- ASCII uppercasing preserves the separator character class. -/
theorem upperChar_sep (c : Nat) (h : isSepB c = true) :
    isSepB (if 97 ≤ c ∧ c ≤ 122 then c - 32 else c) = true := by
  have h' : c = 58 ∨ c = 45 := by simpa [isSepB] using h
  rcases h' with h' | h' <;> subst h' <;> decide

/-- ASCII uppercasing sends any hex digit to an uppercase hex digit. -/
theorem upperChar_hex (c : Nat) (h : isHexB c = true) :
    isUpperHexB (if 97 ≤ c ∧ c ≤ 122 then c - 32 else c) = true := by
  simp only [isHexB, Bool.or_eq_true, Bool.and_eq_true, decide_eq_true_eq] at h
  simp only [isUpperHexB, Bool.or_eq_true, Bool.and_eq_true, decide_eq_true_eq]
  split_ifs with hc <;> omega

/-- Elementwise description of `pyToUpper`. -/
theorem getD_pyToUpper (b : List Nat) (i : Nat) (hi : i < b.length) :
    (pyToUpper b).getD i 0 =
      (if 97 ≤ b.getD i 0 ∧ b.getD i 0 ≤ 122 then b.getD i 0 - 32
       else b.getD i 0) := by
  simp [pyToUpper, List.getD_eq_getElem?_getD, List.getElem?_map,
    List.getElem?_eq_getElem hi]

/-- A candidate accepted by the colon/hyphen MAC regex uppercases to the
guaranteed shape. -/
theorem macPattern_toUpper (b : List Nat) (h : macPatternMatch b = true) :
    upperMacPattern (pyToUpper b) = true := by
  simp only [macPatternMatch, Bool.and_eq_true, beq_iff_eq, List.all_eq_true] at h
  obtain ⟨hlen, hall⟩ := h
  simp only [upperMacPattern, Bool.and_eq_true, beq_iff_eq, List.all_eq_true]
  refine ⟨by simp [pyToUpper, hlen], fun i hi => ?_⟩
  have hi17 : i < 17 := List.mem_range.mp hi
  have hib : i < b.length := by omega
  have hgu := getD_pyToUpper b i hib
  have hip := hall i hi
  by_cases hsep : i % 3 = 2
  · rw [if_pos hsep] at hip ⊢
    rw [hgu]
    exact upperChar_sep _ hip
  · rw [if_neg hsep] at hip ⊢
    rw [hgu]
    exact upperChar_hex _ hip

/-- Every BSSID accepted by `_validate_bssid` has the guaranteed shape:
17 characters, uppercase hex octets, separators each a colon or hyphen. -/
theorem validate_bssid_shape (s m : List Nat) (h : validate_bssid s = some m) :
    upperMacPattern m = true := by
  simp only [validate_bssid] at h
  by_cases he : s.isEmpty
  · rw [if_pos he] at h
    exact absurd h (by simp)
  · rw [if_neg he] at h
    by_cases hm : macPatternMatch (pyStrip (replaceAll [92] [] s)) = true
    · rw [if_pos hm] at h
      rw [← Option.some.inj h]
      exact macPattern_toUpper _ hm
    · rw [if_neg hm] at h
      by_cases h2 : twoHexOctet (pyStrip (replaceAll [92] [] s)) = true
      · rw [if_pos h2] at h
        exact absurd h (by simp)
      · rw [if_neg h2] at h
        exact absurd h (by simp)

/-- C9 counterexample: the 8-field line
`"MyNet:WPA2:75:2437:aa-bb-cc:dd:ee:ff"` reassembles the BSSID candidate
`aa-bb-cc:dd:ee:ff`, which the colon/hyphen regex accepts, so the parser
records the bssid `AA-BB-CC:DD:EE:FF` — an uppercase value that is not
colon-separated. -/
theorem C9_bssid_colon_counterexample :
    (parse_nmcli_line_robust hyphenLine).map (fun d => d.bssid) =
      some (some (strBytes "AA-BB-CC:DD:EE:FF")) ∧
    colonSepUpperMac (strBytes "AA-BB-CC:DD:EE:FF") = false := by
  exact ⟨by decide, by decide⟩

/-- C9 (amended): for every parsed line the recorded BSSID is either absent
or a 17-character uppercase MAC matching the strict 6-octet pattern whose
separators are colons or hyphens — never a partial or garbage value. -/
theorem C9_bssid_validated_spec :
    ∀ (line : List Nat) (d : ParsedLine), parse_nmcli_line_robust line = some d →
      d.bssid = none ∨ ∃ m, d.bssid = some m ∧ upperMacPattern m = true := by
  intro line d h
  have hb := (parse_fields_eq line d h).2.2
  cases hv : validate_bssid (joinColon (((splitColon line).drop 4).take 6)) with
  | none => exact Or.inl (hb.trans hv)
  | some m => exact Or.inr ⟨m, hb.trans hv, validate_bssid_shape _ m hv⟩

/-- C9 witness: the amended shape guarantee instantiated on the
specification's example line. -/
theorem C9_bssid_validated_spec_witness :
    (ParsedLine.mk (strBytes "MyNet") (strBytes "WPA2") 75 2437
        (some (strBytes "AA:BB:CC:DD:EE:FF")) (some 6)).bssid = none ∨
      ∃ m, (ParsedLine.mk (strBytes "MyNet") (strBytes "WPA2") 75 2437
        (some (strBytes "AA:BB:CC:DD:EE:FF")) (some 6)).bssid = some m ∧
        upperMacPattern m = true :=
  C9_bssid_validated_spec exampleLine _ (by decide)

/-- C10 counterexample: the line `"MyNet:WPA2:999:2437:AA:BB:CC:DD:EE:FF:6"`
produces an observation whose signal is 999, outside the claimed 0–100
percentage range. -/
theorem C10_signal_range_counterexample :
    (scan_line_to_network [] bigSignalLine).map (fun n => n.signal) = some 999 ∧
    ¬ (999 : Int) ≤ 100 := by
  exact ⟨by decide, by decide⟩

/-- C10 (amended): every observation produced by the parsing pipeline has a
non-negative signal (the digit value of the signal field, or 0 when the
field is not a digit string); the code enforces no upper bound of 100. -/
theorem C10_signal_nonneg_spec :
    ∀ (rssi_data : List (List Nat × Int)) (line : List Nat) (n : WiFiNetwork),
      scan_line_to_network rssi_data line = some n → 0 ≤ n.signal := by
  intro rssi_data line n h
  cases hp : parse_nmcli_line_robust line with
  | none => rw [scan_line_to_network, hp] at h; exact absurd h (by simp)
  | some d =>
      have hs := (parse_fields_eq line d hp).2.1
      simp only [scan_line_to_network, hp] at h
      by_cases he : d.ssid.isEmpty
      · rw [if_pos he] at h
        exact absurd h (by simp)
      · rw [if_neg he] at h
        rw [← Option.some.inj h]
        show 0 ≤ d.signal
        rw [hs]
        split_ifs
        · exact Int.natCast_nonneg _
        · exact le_refl 0

/-- C10 witness: the non-negativity guarantee instantiated on the
specification's example line. -/
theorem C10_signal_nonneg_spec_witness :
    0 ≤ (WiFiNetwork.mk (strBytes "MyNet") (strBytes "WPA2") 75 2437
      (strBytes "2.4GHz") (some 6) (some (strBytes "AA:BB:CC:DD:EE:FF")) none).signal :=
  C10_signal_nonneg_spec [] exampleLine _ (by decide)

end WBS
